import Mathlib

/-!
Verification of the perception-action control loop and tool-dispatch
subsystem of `os_computer_use` (files `sandbox_agent.py` and
`orchestrator_agent.py`), via a shallow embedding in Lean 4.

External collaborators (the E2B sandbox, the vision / action / grounding
models, the logger) are modelled as oracles: explicit function parameters
whose behaviour is universally quantified, matching the spec's "external
collaborators" boundary.  Everything the repository's own code computes is
embedded faithfully from the source.
-/

namespace AgentCU

/-! ## Tool registry (`sandbox_agent.py`, lines 19-24 and the `@tool`
decorators).  The module-level `tools` dict is seeded with `stop` and then
extended by each `@tool`-decorated method in class-body order. -/

def toolNames : List String :=
  ["stop", "run_command", "run_background_command", "send_key", "type_text",
   "click", "double_click", "right_click", "open_app", "navigate_to_url"]

/-- The attribute names bound on a `SandboxAgent` instance (its methods).
Note `stop` is a registered tool but NOT a method of the class: the control
loop intercepts it before dispatch. -/
def agentMethods : List String :=
  ["call_function", "tool", "save_image", "take_screenshot", "run_command",
   "run_background_command", "send_key", "type_text", "click_element",
   "click", "double_click", "right_click", "open_app", "navigate_to_url",
   "append_screenshot", "run"]

/-- Result of a Python call at the dispatcher boundary: either a returned
value (an Observation string) or an uncaught exception. -/
inductive PyResult where
  | ok (obs : String)
  | raised (err : String)
deriving DecidableEq, Repr

/-- Tool-call arguments: a keyword-to-value mapping. -/
abbrev Args := List (String × String)

/-- An abstract tool implementation: given arguments it either returns an
observation or raises (`Except.error` carries `str(e)`).  This quantifies
over every possible behaviour of the sandbox-backed method bodies. -/
abbrev Impl := String → Args → Except String String

/-- Python's `str.lower()`, character by character (all the registered
names are ASCII). -/
def pyLower (s : String) : String :=
  ⟨s.data.map Char.toLower⟩

/-- Embedding of `SandboxAgent.call_function` (`sandbox_agent.py`, lines 59-69):

    func_impl = getattr(self, name.lower()) if name.lower() in tools else None
    if func_impl:
        try:
            result = func_impl(**arguments) if arguments else func_impl()
            return result
        except Exception as e:
            return f"Error executing function: {str(e)}"
    else:
        return "Function not implemented."

`getattr` is evaluated OUTSIDE the try block and raises `AttributeError`
when the lowered name is a registered tool without a bound method. -/
def call_function (impl : Impl) (name : String) (arguments : Args) : PyResult :=
  if toolNames.contains (pyLower name) then
    if agentMethods.contains (pyLower name) then
      match impl (pyLower name) arguments with
      | .ok r => .ok r
      | .error e => .ok ("Error executing function: " ++ e)
    else
      .raised ("AttributeError: 'SandboxAgent' object has no attribute '" ++ pyLower name ++ "'")
  else
    .ok "Function not implemented."

/-- A trivial implementation oracle used for concrete instances. -/
def trivImpl : Impl := fun _ _ => .ok "done"

/-! ## `SandboxAgent.run_command` (`sandbox_agent.py`, lines 101-109).
The sandbox call yields `(stdout, stderr)`; the method combines them.
Python truthiness of a string is non-emptiness. -/

def run_command_result (stdout stderr : String) : String :=
  if stdout ≠ "" ∧ stderr ≠ "" then
    stdout ++ "\n" ++ stderr
  else if stdout ≠ "" ∨ stderr ≠ "" then
    stdout ++ stderr
  else
    "The command finished running."

/-! ## Pointer pipeline (`sandbox_agent.py`, lines 78-95 and 141-173).
The sandbox and grounding model are oracles; their invocations are recorded
as an ordered event trace. -/

inductive Event where
  | captureScreenshot (filename : String)
  | groundingCall (query : String) (screenshot : String)
  | saveAnnotated (filename : String)
  | logLine (s : String)
  | moveMouse (x y : Int)
  | leftClickPrim
  | doubleClickPrim
  | rightClickPrim
deriving DecidableEq, Repr

structure AgState where
  imageCounter : Nat
  latestScreenshot : Option String
deriving DecidableEq, Repr

/-- Embedding of `SandboxAgent.save_image` (lines 78-87): bump the counter and derive the
filename `{pfx}_{counter}.png` (the temp-dir component is elided: the claims
concern only the per-run distinct names). -/
def save_image (s : AgState) (pfx : String) : AgState × String :=
  let n := s.imageCounter + 1
  ({ s with imageCounter := n }, pfx ++ "_" ++ toString n ++ ".png")

/-- Embedding of `SandboxAgent.take_screenshot` (lines 89-95): capture via the sandbox,
save under a fresh `screenshot_*` name, log, update `latest_screenshot`. -/
def take_screenshot (s : AgState) : AgState × String × List Event :=
  let (s1, filename) := save_image s "screenshot"
  ({ s1 with latestScreenshot := some filename }, filename,
   [.captureScreenshot filename, .logLine ("screenshot " ++ filename)])

/-- Embedding of `SandboxAgent.click_element` (lines 141-152): screenshot, ground the
query on the latest screenshot, annotate and save, log, move the mouse to
the resolved position, fire the click primitive, confirm. -/
def click_element (ground : String → String → Int × Int) (clickPrim : Event)
    (query : String) (s : AgState) (action_name : String := "click") :
    AgState × String × List Event :=
  let (s1, shot, ev1) := take_screenshot s
  let pos := ground query shot
  let (s2, annotated) := save_image s1 "location"
  let (x, y) := pos
  (s2, "The mouse has " ++ action_name ++ "ed.",
   ev1 ++ [.groundingCall query shot, .saveAnnotated annotated,
           .logLine (action_name ++ " " ++ annotated ++ ")"),
           .moveMouse x y, clickPrim])

/-- Embedding of `SandboxAgent.click` (lines 154-159). -/
def click (ground : String → String → Int × Int) (query : String)
    (s : AgState) : AgState × String × List Event :=
  click_element ground .leftClickPrim query s

/-- Embedding of `SandboxAgent.double_click` (lines 161-166). -/
def double_click (ground : String → String → Int × Int) (query : String)
    (s : AgState) : AgState × String × List Event :=
  click_element ground .doubleClickPrim query s "double click"

/-- Embedding of `SandboxAgent.right_click` (lines 168-173). -/
def right_click (ground : String → String → Int × Int) (query : String)
    (s : AgState) : AgState × String × List Event :=
  click_element ground .rightClickPrim query s "right click"

/-! ## Control loop (`sandbox_agent.py`, lines 255-299). -/

structure ToolCall where
  name : String
  parameters : Args
deriving DecidableEq, Repr

/-- Entries of the agent's `self.messages` conversation history, one
constructor per `Message(...)` append site in `run`. -/
inductive Msg where
  | objective (s : String)
  | thought (s : String)
  | callRecord (c : ToolCall)
  | observation (s : String)
deriving DecidableEq, Repr

structure LoopState where
  messages : List Msg
  dispatchCount : Nat
  perceptionCount : Nat
  iter : Nat
deriving DecidableEq, Repr

/-- The external collaborators of `run`, stubbed per iteration index:
the vision model (`append_screenshot`), the action model, and the
observation produced by dispatching a call. -/
structure LoopOracle where
  perception : Nat → String
  action : Nat → Option String × List ToolCall
  observe : Nat → ToolCall → String

/-- The `for tool_call in tool_calls` body (lines 285-299):

    should_continue = False
    for tool_call in tool_calls:
        name, parameters = ...
        should_continue = name != "stop"
        if not should_continue:
            break
        logger.log(...); self.messages.append(Message(json.dumps(tool_call)))
        result = self.call_function(name, parameters)
        self.messages.append(Message(logger.log(f"OBSERVATION: {result}", ...)))

`sc` is the running value of `should_continue` (initially `false`). -/
def execCalls (ob : ToolCall → String) (s : LoopState) (sc : Bool) :
    List ToolCall → LoopState × Bool
  | [] => (s, sc)
  | c :: rest =>
    if c.name = "stop" then
      (s, false)
    else
      execCalls ob
        { s with
            messages := s.messages ++ [.callRecord c, .observation (ob c)],
            dispatchCount := s.dispatchCount + 1 }
        true rest

/-- One iteration of the `while should_continue` loop (lines 261-299):
keep-alive refresh (external, no modelled state), perception via
`append_screenshot` (note its assessment is passed inline to the action
model and NOT appended to `self.messages`), optional narration append,
then the tool-call loop. -/
def iterate (o : LoopOracle) (s : LoopState) : LoopState × Bool :=
  let s1 := { s with perceptionCount := s.perceptionCount + 1 }
  let (content, calls) := o.action s.iter
  let s2 := match content with
    | some c => { s1 with messages := s1.messages ++ [.thought c] }
    | none => s1
  let (s3, cont) := execCalls (o.observe s.iter) s2 false calls
  ({ s3 with iter := s3.iter + 1 }, cont)

/-- The `while should_continue` loop with explicit fuel; returns the final
state, the number of iterations performed, and whether the loop exited
because `should_continue` became false (as opposed to fuel running out). -/
def runLoop (o : LoopOracle) : Nat → LoopState → LoopState × Nat × Bool
  | 0, s => (s, 0, false)
  | fuel + 1, s =>
    let (s1, cont) := iterate o s
    if cont then
      let (s2, n, stopped) := runLoop o fuel s1
      (s2, n + 1, stopped)
    else
      (s1, 1, true)

/-- Embedding of `SandboxAgent.run` (lines 255-299): append the objective
message, then loop. -/
def runAgent (o : LoopOracle) (instruction : String) (fuel : Nat) :
    LoopState × Nat × Bool :=
  runLoop o fuel
    { messages := [.objective ("OBJECTIVE: " ++ instruction)],
      dispatchCount := 0, perceptionCount := 0, iter := 0 }

/-- Count history entries by kind. -/
def countThought : List Msg → Nat
  | [] => 0
  | .thought _ :: rest => countThought rest + 1
  | _ :: rest => countThought rest

def countCallRecord : List Msg → Nat
  | [] => 0
  | .callRecord _ :: rest => countCallRecord rest + 1
  | _ :: rest => countCallRecord rest

def countObservation : List Msg → Nat
  | [] => 0
  | .observation _ :: rest => countObservation rest + 1
  | _ :: rest => countObservation rest

/-! ## Orchestrator (`orchestrator_agent.py`). -/

/-- Does `needle` occur contiguously in `haystack`? -/
def charsContain (needle : List Char) : List Char → Bool
  | [] => needle.isEmpty
  | c :: rest => needle.isPrefixOf (c :: rest) || charsContain needle rest

/-- Substring containment, Python's `needle in haystack` on strings. -/
def strContains (haystack needle : String) : Bool :=
  charsContain needle.data haystack.data

/-- One field of a pydantic args schema: `properties` entry plus whether the
field is listed in `required`. -/
structure FieldInfo where
  type : String
  description : String
deriving DecidableEq, Repr

/-- A LangChain `BaseTool` as `analyze_tool` consumes it: name, description
and args schema (`properties` in declaration order, plus the `required`
list). -/
structure BTool where
  name : String
  description : String
  props : List (String × FieldInfo)
  required : List String
deriving DecidableEq, Repr

structure ParamInfo where
  type : String
  required : Bool
  description : String
deriving DecidableEq, Repr

structure ToolAnalysis where
  name : String
  description : String
  capabilities : List String
  requirements : List String
  effects : List String
  parameters : List (String × ParamInfo)
deriving DecidableEq, Repr

/-- Embedding of `OrchestratorAgent.analyze_tool` (`orchestrator_agent.py`,
lines 23-62).
Capabilities come from substring matches on the lowered description, in
source order.  Requirements are derived from the capabilities LIST: the
source tests `if "browser" in analysis["capabilities"]` — a list-membership
test for the literal element `"browser"`, which is never an element (the
appended element is `"browser_interaction"`), and
`if "text_input" in analysis["capabilities"]`, which does match its
element.  Both tests are embedded exactly as written. -/
def analyze_tool (t : BTool) : ToolAnalysis :=
  let desc := pyLower t.description
  let caps :=
    (if strContains desc "browser" || strContains desc "chrome" then
       ["browser_interaction"] else []) ++
    (if strContains desc "type" || strContains desc "input" then
       ["text_input"] else []) ++
    (if strContains desc "click" then ["mouse_interaction"] else []) ++
    (if strContains desc "read" || strContains desc "get" then
       ["content_extraction"] else [])
  let reqs :=
    (if caps.contains "browser" then ["browser_must_be_open"] else []) ++
    (if caps.contains "text_input" then ["target_element_must_be_focused"]
     else [])
  { name := t.name
    description := t.description
    capabilities := caps
    requirements := reqs
    effects := []
    parameters := t.props.map fun p =>
      (p.1, { type := p.2.type
              required := t.required.contains p.1
              description := p.2.description }) }

/-- Python-dict assignment `m[k] = v` on an insertion-ordered mapping:
overwrite in place if the key exists, else append. -/
def dictSet {α : Type} (m : List (String × α)) (k : String) (v : α) :
    List (String × α) :=
  match m with
  | [] => [(k, v)]
  | (k0, v0) :: rest =>
    if k0 = k then (k0, v) :: rest else (k0, v0) :: dictSet rest k v

/-- Python-dict lookup `m[k]` on an insertion-ordered mapping. -/
def dictGet {α : Type} : List (String × α) → String → Option α
  | [], _ => none
  | (k0, v) :: rest, k => if k0 = k then some v else dictGet rest k

/-- The orchestrator's mutable tool state (`__init__`, lines 17-21). -/
structure OrchState where
  tools : List BTool
  tool_descriptions : List (String × String)
  tool_analysis : List (String × ToolAnalysis)
deriving Repr

def OrchState.init : OrchState := { tools := [], tool_descriptions := [], tool_analysis := [] }

/-- Embedding of `OrchestratorAgent.add_tool` (lines 64-68). -/
def add_tool (s : OrchState) (t : BTool) : OrchState :=
  { tools := s.tools ++ [t]
    tool_descriptions := dictSet s.tool_descriptions t.name t.description
    tool_analysis := dictSet s.tool_analysis t.name (analyze_tool t) }

def add_tools (s : OrchState) : List BTool → OrchState
  | [] => s
  | t :: ts => add_tools (add_tool s t) ts

/-! ## Plan execution (`orchestrator_agent.py`, lines 154-197). -/

/-- A registered tool as `execute_plan` uses it: a name and an `invoke`
oracle that either returns a result or raises (`Except.error` is `str(e)`). -/
structure RTool where
  name : String
  invoke : Args → Except String String

/-- A plan step: `description` is present by the claims' hypothesis
(`step["description"]` is a hard index in the source); `tool` and
`parameters` are read with `.get` and may be absent. -/
structure PStep where
  description : String
  tool : Option String
  parameters : Args
deriving DecidableEq, Repr

structure Plan where
  steps : List PStep
deriving DecidableEq, Repr

structure StepResult where
  step : String
  success : Bool
  result : Option String
  error : Option String
deriving DecidableEq, Repr

/-- Embedding of `next((t for t in self.tools if t.name == tool_name), None)`:
first registered tool whose name equals the step's tool name (a missing
`tool` key matches nothing). -/
def findTool (tools : List RTool) (toolName : Option String) : Option RTool :=
  tools.find? fun t => some t.name = toolName

/-- Python's rendering of the possibly-missing tool name inside
`f"Tool {tool_name} not found"`. -/
def showToolName : Option String → String
  | some n => n
  | none => "None"

/-- The body of `execute_plan`'s per-step loop (lines 160-196): resolve the
tool; on success invoke it (a raise is caught into a failed result); an
unresolved name yields a failed result with a "not found" error. -/
def execStep (tools : List RTool) (st : PStep) : StepResult :=
  match findTool tools st.tool with
  | some t =>
    match t.invoke st.parameters with
    | .ok r =>
      { step := st.description, success := true, result := some r, error := none }
    | .error e =>
      { step := st.description, success := false, result := none, error := some e }
  | none =>
    { step := st.description, success := false, result := none,
      error := some ("Tool " ++ showToolName st.tool ++ " not found") }

/-- Embedding of `OrchestratorAgent.execute_plan` (lines 154-197). -/
def execute_plan (tools : List RTool) (plan : Plan) : List StepResult :=
  plan.steps.map (execStep tools)

/-! ## Concrete instances used for witnesses and counterexamples. -/

/-- A dispatch-observation stub for the loop. -/
def obStub : ToolCall → String := fun c => "ok " ++ c.name

def loopS0 : LoopState :=
  { messages := [], dispatchCount := 0, perceptionCount := 0, iter := 0 }

def tcType : ToolCall := { name := "type_text", parameters := [("text", "hi")] }

def tcStop : ToolCall := { name := "stop", parameters := [] }

def tcOpen : ToolCall := { name := "open_app", parameters := [("app_name", "chrome")] }

def tcNav : ToolCall := { name := "navigate_to_url", parameters := [("url", "example.com")] }

/-- Stub oracle for the end-to-end scenario of the spec: narration plus the
batch `open_app`, `navigate_to_url`, `stop` on every iteration. -/
def scenarioOracle : LoopOracle :=
  { perception := fun _ => "I see a desktop"
    action := fun _ => (some "I will open chrome", [tcOpen, tcNav, tcStop])
    observe := fun _ c => "ok " ++ c.name }

/-- Stub oracle returning an empty tool-call batch. -/
def emptyBatchOracle : LoopOracle :=
  { perception := fun _ => "objective complete"
    action := fun _ => (none, [])
    observe := fun _ c => "ok " ++ c.name }

/-- Stub oracle returning only an explicit `stop` call. -/
def stopBatchOracle : LoopOracle :=
  { perception := fun _ => "objective complete"
    action := fun _ => (none, [tcStop])
    observe := fun _ c => "ok " ++ c.name }

/-- A grounding stub that resolves every query to `(100, 200)`. -/
def groundStub : String → String → Int × Int := fun _ _ => (100, 200)

def agS0 : AgState := { imageCounter := 0, latestScreenshot := none }

/-- Name of the screenshot captured by a pointer action started in state
`s`. -/
def shotName (s : AgState) : String :=
  "screenshot_" ++ toString (s.imageCounter + 1) ++ ".png"

/-- Name of the annotated location image saved by a pointer action started
in state `s`. -/
def locName (s : AgState) : String :=
  "location_" ++ toString (s.imageCounter + 2) ++ ".png"

def rtOpenBrowser : RTool := { name := "open_browser", invoke := fun _ => .ok "opened" }

def rtNavigate : RTool := { name := "navigate", invoke := fun _ => .ok "navigated" }

/-- A 3-step plan whose second step references an unregistered tool. -/
def resiliencePlan : Plan :=
  { steps :=
      [{ description := "open the browser", tool := some "open_browser", parameters := [] },
       { description := "mystery step", tool := some "ghost_tool", parameters := [] },
       { description := "navigate to site", tool := some "navigate",
         parameters := [("url", "example.com")] }] }

/-- A descriptor whose description mentions the browser. -/
def browserBTool : BTool :=
  { name := "open_browser", description := "Open the browser", props := [], required := [] }

/-- The repository's own `navigate_to_url` tool descriptor
(`sandbox_agent.py`, lines 208-211). -/
def navigateBTool : BTool :=
  { name := "navigate_to_url", description := "Navigate to a URL in Chrome."
    props := [("url", { type := "string", description := "URL to navigate to (e.g., 'https://google.com')" })]
    required := ["url"] }

/-- The repository's own `type_text` tool descriptor (`sandbox_agent.py`,
lines 133-136). -/
def typeBTool : BTool :=
  { name := "type_text", description := "Type a specified text into the system."
    props := [("text", { type := "string", description := "Text to type" })]
    required := ["text"] }

/-- The repository's own `click` tool descriptor (`sandbox_agent.py`,
lines 154-157). -/
def clickBTool : BTool :=
  { name := "click", description := "Click on a specified UI element."
    props := [("query", { type := "string", description := "Item or UI element on the screen to click" })]
    required := ["query"] }

/-! ## Helper lemmas. -/

theorem string_append_ne_empty_left {a b : String} (h : a ≠ "") : a ++ b ≠ "" := by
  intro hab
  apply h
  have hd : (a ++ b).data = "".data := by rw [hab]
  rw [String.data_append] at hd
  rcases List.append_eq_nil.mp hd with ⟨ha, _⟩
  cases a
  simp_all

theorem string_append_ne_empty_right {a b : String} (h : b ≠ "") : a ++ b ≠ "" := by
  intro hab
  apply h
  have hd : (a ++ b).data = "".data := by rw [hab]
  rw [String.data_append] at hd
  rcases List.append_eq_nil.mp hd with ⟨_, hb⟩
  cases b
  simp_all

/-! ## Theorems for the claims. -/

/-- C10: `run_command` returns `stdout ++ "\n" ++ stderr` when both streams
are non-empty, the plain concatenation when exactly one is non-empty, and
the fixed completion message when both are empty; in every case the result
is a non-empty string. -/
theorem run_command_output_composition (stdout stderr : String) :
    (stdout ≠ "" → stderr ≠ "" →
      run_command_result stdout stderr = stdout ++ "\n" ++ stderr) ∧
    (stdout ≠ "" → stderr = "" →
      run_command_result stdout stderr = stdout ++ stderr) ∧
    (stdout = "" → stderr ≠ "" →
      run_command_result stdout stderr = stdout ++ stderr) ∧
    (stdout = "" → stderr = "" →
      run_command_result stdout stderr = "The command finished running.") ∧
    run_command_result stdout stderr ≠ "" := by
  unfold run_command_result
  by_cases h1 : stdout = "" <;> by_cases h2 : stderr = ""
  all_goals simp [h1, h2]
  all_goals first
    | decide
    | exact string_append_ne_empty_right h2

/-- Witness for C10 at concrete stream contents. -/
theorem run_command_output_composition_witness :
    run_command_result "out" "err" = "out" ++ "\n" ++ "err" ∧
    run_command_result "out" "" = "out" ++ "" ∧
    run_command_result "" "" = "The command finished running." :=
  ⟨(run_command_output_composition "out" "err").1 (by decide) (by decide),
   (run_command_output_composition "out" "").2.1 (by decide) rfl,
   (run_command_output_composition "" "").2.2.2.1 rfl rfl⟩

/-- C5: dispatching a name that is not registered in the tool catalog
returns the Observation "Function not implemented." and raises no
exception, whatever the bound implementations do. -/
theorem dispatch_unregistered_not_implemented (impl : Impl) (name : String)
    (arguments : Args) (h : toolNames.contains (pyLower name) = false) :
    call_function impl name arguments = PyResult.ok "Function not implemented." := by
  unfold call_function
  rw [h]
  simp

/-- Witness for C5 at the spec's example `dispatch("nonexistent_tool", {})`. -/
theorem dispatch_unregistered_not_implemented_witness :
    toolNames.contains (pyLower "nonexistent_tool") = false ∧
    call_function trivImpl "nonexistent_tool" [] =
      PyResult.ok "Function not implemented." :=
  ⟨by decide,
   dispatch_unregistered_not_implemented trivImpl "nonexistent_tool" [] (by decide)⟩

/-- Dispatch of a registered tool whose lowered name is also a bound method
always returns an Observation, whatever the implementation does. -/
theorem call_function_ok_of_method (impl : Impl) (name : String)
    (arguments : Args) (h1 : toolNames.contains (pyLower name) = true)
    (h2 : agentMethods.contains (pyLower name) = true) :
    ∃ obs, call_function impl name arguments = PyResult.ok obs := by
  unfold call_function
  rw [h1, h2]
  simp only [if_true]
  rcases h : impl (pyLower name) arguments with e | r
  · exact ⟨"Error executing function: " ++ e, rfl⟩
  · exact ⟨r, rfl⟩

/-- C1 (amended): for every registered tool name other than `stop`,
dispatch returns either a success Observation or a caught-error
Observation, for every behaviour of the underlying implementation; `stop`
is excluded because it is registered without a bound method, so `getattr`
raises `AttributeError` outside the `try` block. -/
theorem dispatch_total_except_stop (impl : Impl) (name : String)
    (arguments : Args) (hreg : toolNames.contains (pyLower name) = true)
    (hstop : pyLower name ≠ "stop") :
    ∃ obs, call_function impl name arguments = PyResult.ok obs := by
  apply call_function_ok_of_method impl name arguments hreg
  have hmem : pyLower name ∈ toolNames := by
    simpa using hreg
  simp only [toolNames, List.mem_cons, List.not_mem_nil, or_false] at hmem
  rcases hmem with h | h | h | h | h | h | h | h | h | h
  · exact absurd h hstop
  all_goals rw [h]
  all_goals decide

/-- Witness for C1 (amended) at the registered tool `click`. -/
theorem dispatch_total_except_stop_witness :
    toolNames.contains (pyLower "click") = true ∧
    ∃ obs, call_function trivImpl "click" [("query", "the button")] =
      PyResult.ok obs :=
  ⟨by decide,
   dispatch_total_except_stop trivImpl "click" [("query", "the button")]
     (by decide) (by decide)⟩

/-- Counterexample for C1 as stated: `stop` is a registered tool and the
empty argument mapping satisfies its (empty) parameter schema, yet
dispatching it raises an uncaught `AttributeError` — `getattr` runs outside
the `try` block and `SandboxAgent` has no `stop` method. -/
theorem dispatch_total_counterexample :
    toolNames.contains "stop" = true ∧
    agentMethods.contains "stop" = false ∧
    call_function trivImpl "stop" [] =
      PyResult.raised
        "AttributeError: 'SandboxAgent' object has no attribute 'stop'" :=
  ⟨rfl, by decide, rfl⟩

/-- C3: evaluation of `analyze_tool` at descriptors that exercise every
keyword rule.  The capability derivation behaves as claimed ("browser" or
"chrome" gives `browser_interaction`, "type"/"input" gives `text_input`,
"click" gives `mouse_interaction`, "read"/"get" gives
`content_extraction`), and `text_input` does imply
`target_element_must_be_focused`; but `browser_interaction` does NOT yield
`browser_must_be_open` — the source tests membership of the literal
`"browser"` in the capabilities list, which never holds, so the
requirement is never derived (the `text_input` test beside it uses the
full capability name, showing the intent). -/
theorem analyze_tool_browser_requirement_missing :
    (analyze_tool browserBTool).capabilities = ["browser_interaction"] ∧
    (analyze_tool browserBTool).requirements = [] ∧
    (analyze_tool navigateBTool).capabilities = ["browser_interaction"] ∧
    (analyze_tool navigateBTool).requirements = [] ∧
    (analyze_tool typeBTool).capabilities = ["text_input"] ∧
    (analyze_tool typeBTool).requirements = ["target_element_must_be_focused"] ∧
    (analyze_tool clickBTool).capabilities = ["mouse_interaction"] ∧
    (analyze_tool { name := "reader", description := "Read the page content",
                    props := [], required := [] }).capabilities =
      ["content_extraction"] := by
  decide

/-- Counterexample for C2 as stated: in the batch `type_text` followed by
`stop`, the call preceding `stop` is NOT skipped — it is dispatched (the
dispatch counter increases), although the loop does transition to
stopped. -/
theorem stop_batch_counterexample :
    (execCalls obStub loopS0 false [tcType, tcStop]).2 = false ∧
    (execCalls obStub loopS0 false [tcType, tcStop]).1.dispatchCount = 1 ∧
    ¬ (execCalls obStub loopS0 false [tcType, tcStop]).1.dispatchCount =
        loopS0.dispatchCount := by
  decide

/-- C2 (amended): when a batch contains a `stop` call, every call BEFORE
the `stop` is executed in order (the final state is exactly the state
produced by running the prefix alone, with one dispatch per prefix call),
no call at or after the `stop` is executed, and the loop transitions to
stopped. -/
theorem stop_ends_batch_after_preceding_calls (ob : ToolCall → String)
    (s : LoopState) (sc : Bool) (pre rest : List ToolCall) (ps : Args)
    (hpre : ∀ c ∈ pre, c.name ≠ "stop") :
    execCalls ob s sc (pre ++ { name := "stop", parameters := ps } :: rest) =
      ((execCalls ob s sc pre).1, false) ∧
    (execCalls ob s sc pre).1.dispatchCount = s.dispatchCount + pre.length := by
  induction pre generalizing s sc with
  | nil =>
    simp [execCalls]
  | cons c cs ih =>
    have hc : ¬ c.name = "stop" := hpre c (by simp)
    have htail : ∀ c' ∈ cs, c'.name ≠ "stop" := fun c' hc' => hpre c' (by simp [hc'])
    rcases ih
        { s with
            messages := s.messages ++ [.callRecord c, .observation (ob c)],
            dispatchCount := s.dispatchCount + 1 }
        true htail with ⟨ih1, ih2⟩
    constructor
    · simpa [execCalls, hc] using ih1
    · simp only [execCalls, hc, if_false, ih2, List.length_cons]
      omega

/-- Witness for C2 (amended): the batch `open_app`, `stop`,
`navigate_to_url` executes exactly the one call before `stop`. -/
theorem stop_ends_batch_after_preceding_calls_witness :
    (execCalls obStub loopS0 false [tcOpen, tcStop, tcNav] =
      ((execCalls obStub loopS0 false [tcOpen]).1, false) ∧
     (execCalls obStub loopS0 false [tcOpen]).1.dispatchCount =
       loopS0.dispatchCount + 1) :=
  stop_ends_batch_after_preceding_calls obStub loopS0 false [tcOpen] [tcNav]
    [] (by decide)

/-- C7: a batch with zero tool calls ends the loop after that iteration
(`should_continue` keeps its pre-loop value `false`) at whatever iteration
it occurs, exactly as an explicit `stop` batch would: with any oracle
whose first action response is the empty batch, the loop performs exactly
one iteration and stops, and the whole run is identical to the run with an
oracle that answers with a lone `stop` call instead. -/
theorem empty_batch_terminates_like_stop (o o' : LoopOracle) (instr : String)
    (fuel : Nat) (s : LoopState) (c c0 : Option String) (ps : Args)
    (hs : o.action s.iter = (c, []))
    (h0 : o.action 0 = (c0, []))
    (h' : o'.action 0 = (c0, [{ name := "stop", parameters := ps }])) :
    (iterate o s).2 = false ∧
    (runAgent o instr (fuel + 1)).2 = (1, true) ∧
    runAgent o instr (fuel + 1) = runAgent o' instr (fuel + 1) := by
  refine ⟨?_, ?_, ?_⟩
  · cases c <;> simp [iterate, hs, execCalls]
  · cases c0 <;> simp [runAgent, runLoop, iterate, h0, execCalls]
  · cases c0 <;> simp [runAgent, runLoop, iterate, h0, h', execCalls]

/-- Witness for C7 with concrete stub oracles. -/
theorem empty_batch_terminates_like_stop_witness :
    (iterate emptyBatchOracle loopS0).2 = false ∧
    (runAgent emptyBatchOracle "objective" 7).2 = (1, true) ∧
    runAgent emptyBatchOracle "objective" 7 =
      runAgent stopBatchOracle "objective" 7 :=
  empty_batch_terminates_like_stop emptyBatchOracle stopBatchOracle
    "objective" 6 loopS0 none none [] rfl rfl rfl

/-- Counterexample for C6 as stated: in the end-to-end scenario the loop
does dispatch exactly twice before stopping, but conversation history does
NOT grow by one entry per perception assessment: the assessment is passed
inline to the action-selection call and never appended, so history grows by
5 (1 narration + 2 call records + 2 observations), not by the 6 the claim's
accounting (which adds 1 for the perception assessment) predicts. -/
theorem scenario_history_counterexample :
    (runAgent scenarioOracle "Open the browser and navigate to example.com" 5).2 =
      (1, true) ∧
    (runAgent scenarioOracle "Open the browser and navigate to example.com" 5).1.dispatchCount = 2 ∧
    (runAgent scenarioOracle "Open the browser and navigate to example.com" 5).1.perceptionCount = 1 ∧
    countThought
      (runAgent scenarioOracle "Open the browser and navigate to example.com" 5).1.messages = 1 ∧
    countCallRecord
      (runAgent scenarioOracle "Open the browser and navigate to example.com" 5).1.messages = 2 ∧
    countObservation
      (runAgent scenarioOracle "Open the browser and navigate to example.com" 5).1.messages = 2 ∧
    (runAgent scenarioOracle "Open the browser and navigate to example.com" 5).1.messages.length = 6 ∧
    ¬ (runAgent scenarioOracle "Open the browser and navigate to example.com" 5).1.messages.length =
        1 + 1 + 1 + 2 + 2 := by
  decide

/-- C6 (amended): in the end-to-end scenario (action selection returns
narration plus the batch `open_app`, `navigate_to_url`, `stop`), the loop
invokes the dispatcher exactly twice before stopping after one iteration,
and conversation history grows by exactly one entry per narration, per
serialized call record and per observation produced — the perception
assessment is consumed inline by the action-selection call and contributes
no history entry. -/
theorem scenario_two_dispatches_then_stop (o : LoopOracle)
    (instr narr : String) (fuel : Nat) (a1 a2 ps : Args)
    (h : o.action 0 = (some narr,
      [{ name := "open_app", parameters := a1 },
       { name := "navigate_to_url", parameters := a2 },
       { name := "stop", parameters := ps }])) :
    (runAgent o instr (fuel + 1)).2 = (1, true) ∧
    (runAgent o instr (fuel + 1)).1.dispatchCount = 2 ∧
    (runAgent o instr (fuel + 1)).1.perceptionCount = 1 ∧
    countThought (runAgent o instr (fuel + 1)).1.messages = 1 ∧
    countCallRecord (runAgent o instr (fuel + 1)).1.messages = 2 ∧
    countObservation (runAgent o instr (fuel + 1)).1.messages = 2 ∧
    (runAgent o instr (fuel + 1)).1.messages.length =
      1 + countThought (runAgent o instr (fuel + 1)).1.messages
        + countCallRecord (runAgent o instr (fuel + 1)).1.messages
        + countObservation (runAgent o instr (fuel + 1)).1.messages := by
  refine ⟨?_, ?_, ?_, ?_, ?_, ?_, ?_⟩ <;>
    simp [runAgent, runLoop, iterate, h, execCalls, countThought,
          countCallRecord, countObservation]

/-- Witness for C6 (amended) with the concrete scenario oracle. -/
theorem scenario_two_dispatches_then_stop_witness :
    (runAgent scenarioOracle "Open the browser and navigate to example.com" 3).2 =
      (1, true) ∧
    (runAgent scenarioOracle "Open the browser and navigate to example.com" 3).1.dispatchCount = 2 ∧
    (runAgent scenarioOracle "Open the browser and navigate to example.com" 3).1.perceptionCount = 1 ∧
    countThought
      (runAgent scenarioOracle "Open the browser and navigate to example.com" 3).1.messages = 1 ∧
    countCallRecord
      (runAgent scenarioOracle "Open the browser and navigate to example.com" 3).1.messages = 2 ∧
    countObservation
      (runAgent scenarioOracle "Open the browser and navigate to example.com" 3).1.messages = 2 ∧
    (runAgent scenarioOracle "Open the browser and navigate to example.com" 3).1.messages.length =
      1 + countThought
            (runAgent scenarioOracle "Open the browser and navigate to example.com" 3).1.messages
        + countCallRecord
            (runAgent scenarioOracle "Open the browser and navigate to example.com" 3).1.messages
        + countObservation
            (runAgent scenarioOracle "Open the browser and navigate to example.com" 3).1.messages :=
  scenario_two_dispatches_then_stop scenarioOracle
    "Open the browser and navigate to example.com" "I will open chrome" 2
    [("app_name", "chrome")] [("url", "example.com")] [] rfl

/-- C4: executing a plan yields exactly one Step Result per step, in step
order (the j-th result is a function of the j-th step alone); a step whose
tool name resolves to no registered tool is recorded as a failed result
carrying a "Tool ... not found" error, and every other step is still
attempted. -/
theorem execute_plan_one_result_per_step (tools : List RTool) (plan : Plan)
    (i : Nat) (hi : i < plan.steps.length)
    (hnf : findTool tools (plan.steps.get ⟨i, hi⟩).tool = none) :
    (execute_plan tools plan).length = plan.steps.length ∧
    (∀ j : Nat, (execute_plan tools plan)[j]? =
      (plan.steps[j]?).map (execStep tools)) ∧
    (execute_plan tools plan)[i]? =
      some { step := (plan.steps.get ⟨i, hi⟩).description, success := false,
             result := none,
             error := some ("Tool " ++
               showToolName (plan.steps.get ⟨i, hi⟩).tool ++ " not found") } := by
  refine ⟨by simp [execute_plan], fun j => by simp [execute_plan], ?_⟩
  have hsome : plan.steps[i]? = some (plan.steps.get ⟨i, hi⟩) := by
    rw [List.getElem?_eq_getElem hi]
    rfl
  have hmap : (execute_plan tools plan)[i]? =
      some (execStep tools (plan.steps.get ⟨i, hi⟩)) := by
    rw [execute_plan, List.getElem?_map, hsome, Option.map_some']
  rw [hmap]
  unfold execStep
  rw [hnf]

/-- Witness for C4: a 3-step plan whose second step references the
unregistered tool `ghost_tool` yields 3 results, the second failed with
"Tool ghost_tool not found", the first and third attempted and
successful. -/
theorem execute_plan_one_result_per_step_witness :
    (execute_plan [rtOpenBrowser, rtNavigate] resiliencePlan).length =
      resiliencePlan.steps.length ∧
    (execute_plan [rtOpenBrowser, rtNavigate] resiliencePlan)[1]? =
      some { step := "mystery step", success := false, result := none,
             error := some "Tool ghost_tool not found" } ∧
    execute_plan [rtOpenBrowser, rtNavigate] resiliencePlan =
      [{ step := "open the browser", success := true, result := some "opened",
         error := none },
       { step := "mystery step", success := false, result := none,
         error := some "Tool ghost_tool not found" },
       { step := "navigate to site", success := true,
         result := some "navigated", error := none }] :=
  ⟨(execute_plan_one_result_per_step [rtOpenBrowser, rtNavigate]
      resiliencePlan 1 (by decide) rfl).1,
   (execute_plan_one_result_per_step [rtOpenBrowser, rtNavigate]
      resiliencePlan 1 (by decide) rfl).2.2,
   rfl⟩

theorem dictGet_dictSet_self {α : Type} (m : List (String × α)) (k : String)
    (v : α) : dictGet (dictSet m k v) k = some v := by
  induction m with
  | nil => simp [dictSet, dictGet]
  | cons p rest ih =>
    by_cases h : p.1 = k
    · simp [dictSet, dictGet, h]
    · simp [dictSet, dictGet, h, ih]

theorem dictGet_dictSet_ne {α : Type} (m : List (String × α)) (k k' : String)
    (v : α) (h : k' ≠ k) : dictGet (dictSet m k v) k' = dictGet m k' := by
  have hk : ¬ k = k' := fun he => h he.symm
  induction m with
  | nil => simp [dictSet, dictGet, hk]
  | cons p rest ih =>
    by_cases hp : p.1 = k
    · simp [dictSet, dictGet, hp, hk]
    · simp [dictSet, dictGet, hp, ih]

theorem dictGet_add_tools_not_mem (s : OrchState) (ts : List BTool)
    (n : String) (h : n ∉ ts.map BTool.name) :
    dictGet (add_tools s ts).tool_analysis n = dictGet s.tool_analysis n := by
  induction ts generalizing s with
  | nil => rfl
  | cons a as ih =>
    have hsplit : n ≠ a.name ∧ n ∉ as.map BTool.name := by
      simpa using h
    rw [add_tools, ih (add_tool s a) hsplit.2]
    exact dictGet_dictSet_ne _ _ _ _ hsplit.1

theorem dictGet_add_tools_mem (s : OrchState) (ts : List BTool) (t : BTool)
    (ht : t ∈ ts) (hnodup : (ts.map BTool.name).Nodup) :
    dictGet (add_tools s ts).tool_analysis t.name = some (analyze_tool t) := by
  induction ts generalizing s with
  | nil => cases ht
  | cons a as ih =>
    rcases List.mem_cons.mp ht with rfl | hmem
    · have hnot : t.name ∉ as.map BTool.name := by
        simpa using (List.nodup_cons.mp hnodup).1
      rw [add_tools, dictGet_add_tools_not_mem (add_tool s t) as t.name hnot]
      exact dictGet_dictSet_self _ _ _
    · exact ih (add_tool s a) hmem (List.nodup_cons.mp hnodup).2

/-- C8: `analyze_tool` is a pure function of the descriptor alone: repeated
analysis of an unchanged descriptor is identical, the analysis the
orchestrator stores for a tool is exactly `analyze_tool` of its descriptor,
and (for tool sets with distinct names) the stored analysis is the same
whatever order the tools were added in. -/
theorem analyze_tool_deterministic_order_independent (ts1 ts2 : List BTool)
    (t : BTool) (hperm : ts1.Perm ts2)
    (hnodup : (ts1.map BTool.name).Nodup) (ht : t ∈ ts1) :
    analyze_tool t = analyze_tool t ∧
    dictGet (add_tools OrchState.init ts1).tool_analysis t.name =
      some (analyze_tool t) ∧
    dictGet (add_tools OrchState.init ts1).tool_analysis t.name =
      dictGet (add_tools OrchState.init ts2).tool_analysis t.name := by
  have h1 := dictGet_add_tools_mem OrchState.init ts1 t ht hnodup
  have h2 := dictGet_add_tools_mem OrchState.init ts2 t (hperm.mem_iff.mp ht)
    ((hperm.map BTool.name).nodup_iff.mp hnodup)
  exact ⟨rfl, h1, h1.trans h2.symm⟩

/-- Witness for C8: adding `click` and `type_text` in either order stores
the same analysis for `click`. -/
theorem analyze_tool_deterministic_order_independent_witness :
    analyze_tool clickBTool = analyze_tool clickBTool ∧
    dictGet (add_tools OrchState.init [clickBTool, typeBTool]).tool_analysis
        clickBTool.name = some (analyze_tool clickBTool) ∧
    dictGet (add_tools OrchState.init [clickBTool, typeBTool]).tool_analysis
        clickBTool.name =
      dictGet (add_tools OrchState.init [typeBTool, clickBTool]).tool_analysis
        clickBTool.name :=
  analyze_tool_deterministic_order_independent [clickBTool, typeBTool]
    [typeBTool, clickBTool] clickBTool (List.Perm.swap typeBTool clickBTool [])
    (by decide) (by decide)

/-- C9: with a grounding collaborator that resolves every query to
`(100, 200)`, each pointer action performs the uniform pipeline — exactly
one new screenshot capture, then one grounding call on that freshly
captured screenshot, then one `move_pointer(100, 200)` immediately
followed by the corresponding click primitive — and returns a confirmation
string naming the action performed.  The event trace and result are pinned
down completely. -/
theorem pointer_pipeline_uniform (ground : String → String → Int × Int)
    (q : String) (s : AgState) (hg : ∀ a b, ground a b = (100, 200)) :
    click ground q s =
      ({ imageCounter := s.imageCounter + 2,
         latestScreenshot := some (shotName s) },
       "The mouse has clicked.",
       [.captureScreenshot (shotName s),
        .logLine ("screenshot " ++ shotName s),
        .groundingCall q (shotName s), .saveAnnotated (locName s),
        .logLine ("click " ++ locName s ++ ")"),
        .moveMouse 100 200, .leftClickPrim]) ∧
    double_click ground q s =
      ({ imageCounter := s.imageCounter + 2,
         latestScreenshot := some (shotName s) },
       "The mouse has double clicked.",
       [.captureScreenshot (shotName s),
        .logLine ("screenshot " ++ shotName s),
        .groundingCall q (shotName s), .saveAnnotated (locName s),
        .logLine ("double click " ++ locName s ++ ")"),
        .moveMouse 100 200, .doubleClickPrim]) ∧
    right_click ground q s =
      ({ imageCounter := s.imageCounter + 2,
         latestScreenshot := some (shotName s) },
       "The mouse has right clicked.",
       [.captureScreenshot (shotName s),
        .logLine ("screenshot " ++ shotName s),
        .groundingCall q (shotName s), .saveAnnotated (locName s),
        .logLine ("right click " ++ locName s ++ ")"),
        .moveMouse 100 200, .rightClickPrim]) := by
  refine ⟨?_, ?_, ?_⟩ <;>
    simp [click, double_click, right_click, click_element, take_screenshot,
          save_image, shotName, locName, hg]

/-- Witness for C9 at the stub grounding collaborator and a concrete
query. -/
theorem pointer_pipeline_uniform_witness :
    (click groundStub "the button" agS0).2 =
      ("The mouse has clicked.",
       [.captureScreenshot "screenshot_1.png",
        .logLine "screenshot screenshot_1.png",
        .groundingCall "the button" "screenshot_1.png",
        .saveAnnotated "location_2.png",
        .logLine "click location_2.png)",
        .moveMouse 100 200, .leftClickPrim]) := by
  rw [(pointer_pipeline_uniform groundStub "the button" agS0
        (fun _ _ => rfl)).1]
  decide

end AgentCU

